import Mathlib

/-!
Shallow embedding of the rumqtt client core: `src/mqttoptions.rs` and
`src/client/connection.rs`.

Conventions of the embedding:
* Rust `usize`/`u64` values are `Nat`; where overflow matters the arithmetic
  is taken modulo `2 ^ 64` explicitly.
* `std::time::Duration` values constructed with `Duration::from_secs` are
  modelled as their number of seconds (`Nat`).
* A Rust function that can `panic` is modelled as returning `Option`, with
  `Option.none` standing for the panic.
* Streams (futures 0.1) are modelled by the list of items they emit.
-/

/-- Modulus of Rust `usize` arithmetic (64-bit target). -/
def USIZE_MOD : Nat := 2 ^ 64

/-- `ReconnectOptions` from mqttoptions.rs: `Never`, `AfterFirstSuccess(u64)`,
`Always(u64)` (the `u64` is the sleep time in seconds before retrying). -/
inductive ReconnectOptions
  | never
  | afterFirstSuccess (secs : Nat)
  | always (secs : Nat)
  deriving DecidableEq

/-- `SecurityOptions` from mqttoptions.rs. -/
inductive SecurityOptions
  | none
  | usernamePassword (username password : String)
  | gcloudIot (project : String) (key : List Nat) (expiry : Int)
  deriving DecidableEq

/-- `ConnectionMethod` from mqttoptions.rs: `Tcp` or `Tls(ca, Option (cert, key))`. -/
inductive ConnectionMethod
  | tcp
  | tls (ca : List Nat) (clientAuth : Option (List Nat × List Nat))
  deriving DecidableEq

/-- `Proxy` from mqttoptions.rs. -/
inductive Proxy
  | none
  | httpConnect (host : String) (port : Nat) (key : List Nat) (expiry : Int)
  deriving DecidableEq

/-- `LastWill` from the mqtt311 crate (topic, message, qos, retain). -/
structure LastWill where
  topic : String
  message : String
  qos : Nat
  retain : Bool
  deriving DecidableEq

/-- `MqttOptions` from mqttoptions.rs, field for field.  Durations are in
seconds; `outgoing_queuelimit` is `(queue size, delay seconds)`. -/
structure MqttOptions where
  host : String
  port : Nat
  keep_alive : Nat
  clean_session : Bool
  client_id : String
  connection_method : ConnectionMethod
  proxy : Proxy
  reconnect : ReconnectOptions
  security : SecurityOptions
  max_packet_size : Nat
  last_will : Option LastWill
  request_channel_capacity : Nat
  notification_channel_capacity : Nat
  outgoing_ratelimit : Option Nat
  outgoing_queuelimit : Nat × Nat
  deriving DecidableEq

/-- `impl Default for MqttOptions` (mqttoptions.rs lines 85-105). -/
def MqttOptions.default : MqttOptions :=
  { host := "127.0.0.1"
    port := 1883
    keep_alive := 30
    clean_session := true
    client_id := "test-client"
    connection_method := ConnectionMethod.tcp
    proxy := Proxy.none
    reconnect := ReconnectOptions.afterFirstSuccess 10
    security := SecurityOptions.none
    max_packet_size := 256 * 1024
    last_will := Option.none
    request_channel_capacity := 10
    notification_channel_capacity := 10
    outgoing_ratelimit := Option.none
    outgoing_queuelimit := (100, 3) }

/-- `MqttOptions::set_keep_alive` (mqttoptions.rs lines 158-165): panics
(`Option.none`) when `secs < 10`, otherwise stores `Duration::from_secs(secs)`. -/
def MqttOptions.set_keep_alive (o : MqttOptions) (secs : Nat) : Option MqttOptions :=
  if secs < 10 then Option.none
  else Option.some { o with keep_alive := secs }

/-- `MqttOptions::set_max_packet_size` (mqttoptions.rs lines 172-176): stores
`sz * 1024` with no validation; the `usize` multiplication wraps modulo `2^64`. -/
def MqttOptions.set_max_packet_size (o : MqttOptions) (sz : Nat) : MqttOptions :=
  { o with max_packet_size := sz * 1024 % USIZE_MOD }

/-- `MqttOptions::set_request_channel_capacity` (mqttoptions.rs lines 265-268). -/
def MqttOptions.set_request_channel_capacity (o : MqttOptions) (capacity : Nat) : MqttOptions :=
  { o with request_channel_capacity := capacity }

/-- `MqttOptions::set_notification_channel_capacity` (mqttoptions.rs lines 254-257). -/
def MqttOptions.set_notification_channel_capacity (o : MqttOptions) (capacity : Nat) :
    MqttOptions :=
  { o with notification_channel_capacity := capacity }

/-- `MqttOptions::set_outgoing_ratelimit` (mqttoptions.rs lines 276-283): panics
(`Option.none`) when `rate == 0`, otherwise stores `Some(rate)`. -/
def MqttOptions.set_outgoing_ratelimit (o : MqttOptions) (rate : Nat) : Option MqttOptions :=
  if rate = 0 then Option.none
  else Option.some { o with outgoing_ratelimit := Option.some rate }

/-- `MqttOptions::set_outgoing_queuelimit` (mqttoptions.rs lines 292-299): panics
(`Option.none`) when `queue_size == 0`, otherwise stores `(queue_size, delay)`. -/
def MqttOptions.set_outgoing_queuelimit (o : MqttOptions) (queue_size delay : Nat) :
    Option MqttOptions :=
  if queue_size = 0 then Option.none
  else Option.some { o with outgoing_queuelimit := (queue_size, delay) }

/-- `Publish` from the mqtt3 crate: topic, qos (0/1/2), retain, dup, optional
packet id, payload bytes. -/
structure Publish where
  topic_name : String
  qos : Nat
  retain : Bool
  dup : Bool
  pid : Option Nat
  payload : List Nat
  deriving DecidableEq

/-- `Subscribe` from the mqtt3 crate: packet id and (topic, qos) list. -/
structure Subscribe where
  pid : Nat
  topics : List (String × Nat)
  deriving DecidableEq

/-- `Unsubscribe` from the mqtt3 crate: packet id and topic list. -/
structure Unsubscribe where
  pid : Nat
  topics : List String
  deriving DecidableEq

/-- `Packet` from the mqtt3 crate: the MQTT 3.1.1 control packets.  The
`Connect`/`Connack`/`Suback`/`Unsuback` payloads are elided: no claim here
inspects them. -/
inductive Packet
  | connect
  | connack
  | publish (p : Publish)
  | puback (pkid : Nat)
  | pubrec (pkid : Nat)
  | pubrel (pkid : Nat)
  | pubcomp (pkid : Nat)
  | subscribe (s : Subscribe)
  | suback (pkid : Nat)
  | unsubscribe (u : Unsubscribe)
  | unsuback (pkid : Nat)
  | pingreq
  | pingresp
  | disconnect
  deriving DecidableEq

/-- Modelled from the spec: the `Request` enum (user → loop) is declared in
`client/mod.rs`, which is not among the sources.  Its variants are taken from
the spec data model — `Publish, PubAck, PubRec, PubRel, PubComp, Subscribe,
Unsubscribe, Ping, Disconnect, Reconnect(new_opts), None` — and are consistent
with every use in `client/connection.rs`. -/
inductive Request
  | publish (p : Publish)
  | puback (pkid : Nat)
  | pubrec (pkid : Nat)
  | pubrel (pkid : Nat)
  | pubcomp (pkid : Nat)
  | ping
  | disconnect
  | subscribe (s : Subscribe)
  | unsubscribe (u : Unsubscribe)
  | reconnect (opts : MqttOptions)
  | none
  deriving DecidableEq

/-- Modelled from the spec: the `Notification` enum (loop → user) is declared in
`client/mod.rs`, which is not among the sources.  Variants per the spec data
model: `Publish, PubAck, PubRec, PubRel, PubComp, SubAck, Reconnection,
Disconnection, None`. -/
inductive Notification
  | publish (p : Publish)
  | puback (pkid : Nat)
  | pubrec (pkid : Nat)
  | pubrel (pkid : Nat)
  | pubcomp (pkid : Nat)
  | suback (pkid : Nat)
  | reconnection
  | disconnection
  | none
  deriving DecidableEq

/-- Modelled from the spec: the variants of `NetworkError` (error.rs is not
among the sources) that `client/connection.rs` constructs or that the spec
taxonomy lists. -/
inductive NetworkError
  | io
  | codec
  | keepAliveTimeout
  | userReconnect
  | unsolicitedAck (pkid : Nat)
  | packetIdsExhausted
  | invalidState
  | blah
  deriving DecidableEq

/-- Modelled from the spec: `MqttState` (mqttstate.rs is not among the
sources).  Only the parts `client/connection.rs` touches are modelled: the
`opts` field written by `validate_userrequest`, and the in-flight tables
`outgoing_pub` (packet id → publish, kept in insertion order) and
`outgoing_rel` (packet ids owing a PubRel) read by `handle_reconnection`. -/
structure MqttState where
  opts : MqttOptions
  outgoing_pub : List Publish
  outgoing_rel : List Nat
  deriving DecidableEq

/-- `impl From<Request> for Packet` (connection.rs lines 320-334).  The match
covers `Publish, PubAck, PubRec, PubRel, PubComp, Ping, Disconnect, Subscribe`;
the wildcard arm is `unimplemented` and panics, modelled as `Option.none`. -/
def Packet.from_request (item : Request) : Option Packet :=
  match item with
  | Request.publish pb => Option.some (Packet.publish pb)
  | Request.puback pkid => Option.some (Packet.puback pkid)
  | Request.pubrec pkid => Option.some (Packet.pubrec pkid)
  | Request.pubrel pkid => Option.some (Packet.pubrel pkid)
  | Request.pubcomp pkid => Option.some (Packet.pubcomp pkid)
  | Request.ping => Option.some Packet.pingreq
  | Request.disconnect => Option.some Packet.disconnect
  | Request.subscribe sb => Option.some (Packet.subscribe sb)
  | _ => Option.none

/-- `validate_userrequest` (connection.rs lines 257-267).  `Reconnect(opts)`
overwrites `mqtt_state.opts` and yields the `UserReconnect` error; every other
request is handed to the `Request → Packet` conversion (`Option.none` in the
result payload marks that conversion's panic). -/
def validate_userrequest (userrequest : Request) (mqtt_state : MqttState) :
    MqttState × Except NetworkError (Option Packet) :=
  match userrequest with
  | Request.reconnect mqttoptions =>
      ({ mqtt_state with opts := mqttoptions }, Except.error NetworkError.userReconnect)
  | _ => (mqtt_state, Except.ok (Packet.from_request userrequest))

/-- `should_forward_packet` (connection.rs lines 298-303). -/
def should_forward_packet (reply : Request) : Bool :=
  match reply with
  | Request.none => false
  | _ => true

/-- Observable fate of one `Request` at a network-forwarding stage: filtered
out before conversion, converted and sent, panicked inside the
`Request → Packet` conversion, or turned into a stream error. -/
inductive ForwardOutcome
  | dropped
  | sent (p : Packet)
  | panicked
  | errored (e : NetworkError)
  deriving DecidableEq

/-- Fate of a request on the user-request path (connection.rs lines 214-223):
each item of `userrequest_rx` goes through `validate_userrequest`, whose
non-`Reconnect` arm applies the `Request → Packet` conversion unconditionally. -/
def user_request_outcome (r : Request) (s : MqttState) : ForwardOutcome :=
  match (validate_userrequest r s).2 with
  | Except.error e => ForwardOutcome.errored e
  | Except.ok Option.none => ForwardOutcome.panicked
  | Except.ok (Option.some p) => ForwardOutcome.sent p

/-- Fate of a reply on the incoming-reply path (connection.rs lines 204-205):
`.filter(should_forward_packet)` and only then the `Request → Packet`
conversion (`packet.into()`). -/
def reply_forward_outcome (r : Request) : ForwardOutcome :=
  if should_forward_packet r then
    match Packet.from_request r with
    | Option.none => ForwardOutcome.panicked
    | Option.some p => ForwardOutcome.sent p
  else ForwardOutcome.dropped

/-- A `crossbeam_channel::bounded(capacity)` notification channel, modelled by
its capacity and current queue contents (oldest first). -/
structure NotificationChannel where
  capacity : Nat
  queue : List Notification
  deriving DecidableEq

/-- `crossbeam_channel::Sender::is_full`: the queue holds `capacity` messages. -/
def NotificationChannel.is_full (tx : NotificationChannel) : Bool :=
  tx.queue.length == tx.capacity

/-- `crossbeam_channel::Sender::send` on a non-full bounded channel: enqueue. -/
def NotificationChannel.send (tx : NotificationChannel) (n : Notification) :
    NotificationChannel :=
  { tx with queue := tx.queue ++ [n] }

/-- `handle_notification` (connection.rs lines 269-276): `Notification::None`
is discarded; otherwise send only if the channel is not full, else drop. -/
def handle_notification (n : Notification) (tx : NotificationChannel) :
    NotificationChannel :=
  match n with
  | Notification.none => tx
  | _ => if !tx.is_full then tx.send n else tx

/-- The notification-delivery point of `network_reply_stream` (connection.rs
lines 197-201): after `handle_incoming_mqtt_packet` has produced
`(notification, reply)`, the notification is handed to `handle_notification`,
which receives only the channel sender — `mqtt_state` is not an argument, so
the session state is returned untouched. -/
def network_reply_notification_step (mqtt_state : MqttState) (n : Notification)
    (tx : NotificationChannel) : MqttState × NotificationChannel :=
  (mqtt_state, handle_notification n tx)

/-- What the reconnection supervisor does at an error: leave the loop, or
sleep some seconds and retry. -/
inductive SupervisorAction
  | exit
  | sleepRetry (secs : Nat)
  deriving DecidableEq

/-- The error-handling match of `Connection::mqtt_eventloop` (connection.rs
lines 74-81 and the identical lines 92-99), as a function of the reconnect
option and the current `connection_count`. -/
def reconnect_decision (reconnect_option : ReconnectOptions) (connection_count : Nat) :
    SupervisorAction :=
  match reconnect_option with
  | ReconnectOptions.afterFirstSuccess time =>
      if connection_count = 1 then SupervisorAction.exit
      else SupervisorAction.sleepRetry time
  | ReconnectOptions.always time => SupervisorAction.sleepRetry time
  | ReconnectOptions.never => SupervisorAction.exit

/-- `connection_count` as maintained by `mqtt_eventloop`: initialised to `1`
(connection.rs line 56) and incremented once per successful connect
(connection.rs line 69), hence `1 + number of successful connects`. -/
def connection_count_after (successes : Nat) : Nat :=
  1 + successes

/-- Modelled from the spec: `MqttState::handle_reconnection` (mqttstate.rs is
not among the sources).  Per the spec it returns the packets to replay after a
non-clean resume: every publish of `outgoing_pub` with `dup = true` (original
packet ids, original order) followed by a `PubRel` for every id in
`outgoing_rel`. -/
def MqttState.handle_reconnection (s : MqttState) : List Packet :=
  s.outgoing_pub.map (fun p => Packet.publish { p with dup := true })
    ++ s.outgoing_rel.map Packet.pubrel

/-- futures 0.1 `Stream::chain`: the resulting stream emits every element of
the first stream and, once the first stream is exhausted, every element of the
second stream. -/
def stream_chain {α : Type} (first second : List α) : List α :=
  first ++ second

/-- The packet sequence produced by `Connection::network_request_stream`
(connection.rs lines 210-241) ahead of `handle_outgoing_mqtt_packet`:
the validated user-request stream is chained with the last-session replay
stream — connection.rs line 236: `userrequest_rx.chain(last_session_publishes)`,
where `last_session_publishes = mqtt_state.handle_reconnection()`. -/
def network_request_stream (user_request_packets : List Packet) (mqtt_state : MqttState) :
    List Packet :=
  stream_chain user_request_packets mqtt_state.handle_reconnection

/-- The channel capacities used by `Connection::run` (connection.rs lines
38-39): `crossbeam_channel::bounded(10)` for notifications and
`mpsc::channel::<Request>(10)` for user requests — both literal `10`,
independent of the options passed in.  Returned as
`(notification capacity, request capacity)`. -/
def Connection.run_channel_capacities (_mqttoptions : MqttOptions) : Nat × Nat :=
  (10, 10)

/-- A session state with default options and empty in-flight tables. -/
def st0 : MqttState :=
  { opts := MqttOptions.default, outgoing_pub := [], outgoing_rel := [] }

/-- A QoS-1 publish with packet id 1, as stored in `outgoing_pub`. -/
def pub1 : Publish :=
  { topic_name := "a", qos := 1, retain := false, dup := false
    pid := Option.some 1, payload := [120] }

/-- A session state holding one unacked publish and one owed PubRel. -/
def replay_state : MqttState :=
  { opts := MqttOptions.default, outgoing_pub := [pub1], outgoing_rel := [2] }

/-- A concrete unsubscribe request payload. -/
def unsub0 : Unsubscribe :=
  { pid := 3, topics := ["a"] }

/-- A notification channel of capacity 1 that is full. -/
def ch_full : NotificationChannel :=
  { capacity := 1, queue := [Notification.reconnection] }

/-- A notification channel of capacity 1 that is empty. -/
def ch_empty : NotificationChannel :=
  { capacity := 1, queue := [] }

/-- C1: `network_request_stream` chains the user-request stream FIRST and the
last-session replay stream second (connection.rs line 236), so on a non-clean
resume with one buffered publish, one owed PubRel and one queued user request,
the user request is emitted before every replay packet — the opposite of the
claimed (and specified) order. -/
theorem c1_user_requests_precede_replay :
    network_request_stream [Packet.pingreq] replay_state
      = [Packet.pingreq,
         Packet.publish { pub1 with dup := true },
         Packet.pubrel 2] := by
  rfl

/-- C2: `Connection::run` creates the notification and user-request channels
with hardcoded capacity 10 even when the options configure capacities 5 and 7,
contradicting the claim that the configured capacities are used for every
`MqttOptions` value. -/
theorem c2_channel_capacities_hardcoded :
    Connection.run_channel_capacities
        ((MqttOptions.default.set_request_channel_capacity 5).set_notification_channel_capacity 7)
      = (10, 10)
    ∧ ((MqttOptions.default.set_request_channel_capacity 5).set_notification_channel_capacity
        7).request_channel_capacity = 5
    ∧ ((MqttOptions.default.set_request_channel_capacity 5).set_notification_channel_capacity
        7).notification_channel_capacity = 7 :=
  ⟨rfl, rfl, rfl⟩

/-- C3 counterexample: on the user-request path a `Request::None` is NOT
filtered out — `validate_userrequest` hands it to the `Request → Packet`
conversion, whose wildcard arm panics — refuting the claim that the conversion
is never applied to `Request::None`. -/
theorem c3_none_reaches_conversion :
    user_request_outcome Request.none st0 = ForwardOutcome.panicked
    ∧ ForwardOutcome.panicked ≠ ForwardOutcome.dropped := by
  exact ⟨rfl, by decide⟩

/-- C3 amended: `Request::None` is filtered before the `Request → Packet`
conversion on the incoming-reply path (`should_forward_packet` rejects it and
every other request is forwarded), but on the user-request path it is not
filtered: `validate_userrequest` applies the conversion to it, which panics in
the `unimplemented` wildcard arm. -/
theorem c3_none_filtered_only_on_reply_path (s : MqttState) (p : Publish) :
    should_forward_packet Request.none = false
    ∧ reply_forward_outcome Request.none = ForwardOutcome.dropped
    ∧ user_request_outcome Request.none s = ForwardOutcome.panicked
    ∧ should_forward_packet (Request.publish p) = true
    ∧ reply_forward_outcome (Request.publish p) = ForwardOutcome.sent (Packet.publish p) :=
  ⟨rfl, rfl, rfl, rfl, rfl⟩

/-- C5 counterexample: a user `Unsubscribe` request is not "passed through
unchanged as a packet" — `validate_userrequest` feeds it to the
`Request → Packet` conversion, which panics in its wildcard arm. -/
theorem c5_unsubscribe_not_passed_through :
    user_request_outcome (Request.unsubscribe unsub0) st0 = ForwardOutcome.panicked := by
  rfl

/-- C5 amended: `validate_userrequest` on `Reconnect(new_opts)` replaces the
session options with `new_opts` and yields the `UserReconnect` error; every
other variant for which the `Request → Packet` conversion is defined
(`Publish, PubAck, PubRec, PubRel, PubComp, Ping, Disconnect, Subscribe`) is
passed through unchanged as the corresponding packet, while `Unsubscribe` and
`None` instead reach the conversion's `unimplemented` arm and panic. -/
theorem c5_validate_userrequest_cases (s : MqttState) (o : MqttOptions) (p : Publish)
    (sb : Subscribe) (u : Unsubscribe) (i : Nat) :
    validate_userrequest (Request.reconnect o) s
      = ({ s with opts := o }, Except.error NetworkError.userReconnect)
    ∧ validate_userrequest (Request.publish p) s
      = (s, Except.ok (Option.some (Packet.publish p)))
    ∧ validate_userrequest (Request.puback i) s
      = (s, Except.ok (Option.some (Packet.puback i)))
    ∧ validate_userrequest (Request.pubrec i) s
      = (s, Except.ok (Option.some (Packet.pubrec i)))
    ∧ validate_userrequest (Request.pubrel i) s
      = (s, Except.ok (Option.some (Packet.pubrel i)))
    ∧ validate_userrequest (Request.pubcomp i) s
      = (s, Except.ok (Option.some (Packet.pubcomp i)))
    ∧ validate_userrequest Request.ping s
      = (s, Except.ok (Option.some Packet.pingreq))
    ∧ validate_userrequest Request.disconnect s
      = (s, Except.ok (Option.some Packet.disconnect))
    ∧ validate_userrequest (Request.subscribe sb) s
      = (s, Except.ok (Option.some (Packet.subscribe sb)))
    ∧ validate_userrequest (Request.unsubscribe u) s = (s, Except.ok Option.none)
    ∧ validate_userrequest Request.none s = (s, Except.ok Option.none) :=
  ⟨rfl, rfl, rfl, rfl, rfl, rfl, rfl, rfl, rfl, rfl, rfl⟩

/-- C9: the `Request → Packet` conversion is partial — `Unsubscribe`,
`Reconnect` and `None` all fall into the `unimplemented` wildcard arm and
panic — and a user-submitted unsubscribe request that reaches the forwarding
stage panics instead of producing an `Unsubscribe` packet (while e.g. a
publish converts normally). -/
theorem c9_from_request_partial (u : Unsubscribe) (o : MqttOptions) (s : MqttState)
    (p : Publish) :
    Packet.from_request (Request.unsubscribe u) = Option.none
    ∧ Packet.from_request (Request.reconnect o) = Option.none
    ∧ Packet.from_request Request.none = Option.none
    ∧ user_request_outcome (Request.unsubscribe u) s = ForwardOutcome.panicked
    ∧ Packet.from_request (Request.publish p) = Option.some (Packet.publish p) :=
  ⟨rfl, rfl, rfl, rfl, rfl⟩

/-- C4: at an error (failed connect or terminated session), the supervisor of
`mqtt_eventloop` exits without retry exactly when the reconnect option is
`Never`, or it is `AfterFirstSuccess` and no connection has succeeded yet
(`connection_count` is still at its initial value 1); in every other case —
`Always(d)`, or `AfterFirstSuccess(d)` after at least one success — it sleeps
`d` seconds and retries. -/
theorem c4_supervisor_policy (ro : ReconnectOptions) (successes d : Nat) :
    (reconnect_decision ro (connection_count_after successes) = SupervisorAction.exit
      ↔ ro = ReconnectOptions.never
        ∨ ((∃ t, ro = ReconnectOptions.afterFirstSuccess t) ∧ successes = 0))
    ∧ (ro = ReconnectOptions.always d →
        reconnect_decision ro (connection_count_after successes)
          = SupervisorAction.sleepRetry d)
    ∧ (ro = ReconnectOptions.afterFirstSuccess d → successes ≠ 0 →
        reconnect_decision ro (connection_count_after successes)
          = SupervisorAction.sleepRetry d) := by
  refine ⟨?_, ?_, ?_⟩
  · cases ro with
    | never => simp [reconnect_decision]
    | always t => simp [reconnect_decision]
    | afterFirstSuccess t =>
        cases successes with
        | zero => simp [reconnect_decision, connection_count_after]
        | succ k =>
            simp only [reconnect_decision, connection_count_after]
            rw [if_neg (by omega)]
            simp
  · intro h
    subst h
    rfl
  · intro h hs
    subst h
    cases successes with
    | zero => exact absurd rfl hs
    | succ k =>
        simp only [reconnect_decision, connection_count_after]
        rw [if_neg (by omega)]

/-- Witness for C4: with `Always(7)` and no prior success the supervisor sleeps
7 seconds and retries; with `AfterFirstSuccess(9)` after two successes it
sleeps 9 seconds and retries. -/
theorem c4_supervisor_policy_witness :
    reconnect_decision (ReconnectOptions.always 7) (connection_count_after 0)
      = SupervisorAction.sleepRetry 7
    ∧ reconnect_decision (ReconnectOptions.afterFirstSuccess 9) (connection_count_after 2)
      = SupervisorAction.sleepRetry 9 :=
  ⟨(c4_supervisor_policy (ReconnectOptions.always 7) 0 7).2.1 rfl,
   (c4_supervisor_policy (ReconnectOptions.afterFirstSuccess 9) 2 9).2.2 rfl (by decide)⟩

/-- C6: delivering a notification never blocks and never touches the session
state: on a full channel the notification is dropped and the channel is
unchanged; on a non-full channel a non-`None` notification is enqueued; the
`None` sentinel is always discarded; and in every case the session state is
returned exactly as it was. -/
theorem c6_notification_drop_on_full (s : MqttState) (n : Notification)
    (tx : NotificationChannel) :
    (tx.is_full = true → network_reply_notification_step s n tx = (s, tx))
    ∧ (network_reply_notification_step s n tx).1 = s
    ∧ (tx.is_full = false → n ≠ Notification.none →
        network_reply_notification_step s n tx = (s, tx.send n))
    ∧ network_reply_notification_step s Notification.none tx = (s, tx) := by
  refine ⟨?_, rfl, ?_, rfl⟩
  · intro h
    cases n <;> simp [network_reply_notification_step, handle_notification, h]
  · intro h hn
    cases n <;>
      first
        | exact absurd rfl hn
        | simp [network_reply_notification_step, handle_notification, h]

/-- Witness for C6: on a full capacity-1 channel a `PubAck(1)` notification is
dropped with channel and state unchanged; on an empty capacity-1 channel it is
enqueued. -/
theorem c6_notification_drop_witness :
    network_reply_notification_step st0 (Notification.puback 1) ch_full = (st0, ch_full)
    ∧ network_reply_notification_step st0 (Notification.puback 1) ch_empty
      = (st0, ch_empty.send (Notification.puback 1)) :=
  ⟨(c6_notification_drop_on_full st0 (Notification.puback 1) ch_full).1 (by decide),
   (c6_notification_drop_on_full st0 (Notification.puback 1) ch_empty).2.2.1
     (by decide) (by decide)⟩

/-- C7: the option setters validate at call time and fail loudly: for
`secs < 10`, `set_keep_alive` panics, for `secs ≥ 10` it stores `secs` seconds;
`set_outgoing_ratelimit 0` panics and any nonzero rate is stored as `Some rate`;
`set_outgoing_queuelimit 0 delay` panics for every delay and any nonzero queue
size is stored as `(queue_size, delay)`. -/
theorem c7_setter_validation (o : MqttOptions) (secs rate queue_size delay : Nat) :
    (secs < 10 → o.set_keep_alive secs = Option.none)
    ∧ (10 ≤ secs → o.set_keep_alive secs = Option.some { o with keep_alive := secs })
    ∧ o.set_outgoing_ratelimit 0 = Option.none
    ∧ (rate ≠ 0 → o.set_outgoing_ratelimit rate
        = Option.some { o with outgoing_ratelimit := Option.some rate })
    ∧ o.set_outgoing_queuelimit 0 delay = Option.none
    ∧ (queue_size ≠ 0 → o.set_outgoing_queuelimit queue_size delay
        = Option.some { o with outgoing_queuelimit := (queue_size, delay) }) := by
  refine ⟨?_, ?_, ?_, ?_, ?_, ?_⟩
  · intro h
    simp [MqttOptions.set_keep_alive, h]
  · intro h
    simp [MqttOptions.set_keep_alive, Nat.not_lt.mpr h]
  · simp [MqttOptions.set_outgoing_ratelimit]
  · intro h
    simp [MqttOptions.set_outgoing_ratelimit, h]
  · simp [MqttOptions.set_outgoing_queuelimit]
  · intro h
    simp [MqttOptions.set_outgoing_queuelimit, h]

/-- Witness for C7: `set_keep_alive 5` panics, `set_keep_alive 30` stores 30 s,
`set_outgoing_ratelimit 2` stores `Some 2`, and `set_outgoing_queuelimit 4 3`
stores `(4, 3)`, all on the default options. -/
theorem c7_setter_validation_witness :
    MqttOptions.default.set_keep_alive 5 = Option.none
    ∧ MqttOptions.default.set_keep_alive 30
      = Option.some { MqttOptions.default with keep_alive := 30 }
    ∧ MqttOptions.default.set_outgoing_ratelimit 2
      = Option.some { MqttOptions.default with outgoing_ratelimit := Option.some 2 }
    ∧ MqttOptions.default.set_outgoing_queuelimit 4 3
      = Option.some { MqttOptions.default with outgoing_queuelimit := (4, 3) } :=
  ⟨(c7_setter_validation MqttOptions.default 5 2 4 3).1 (by decide),
   (c7_setter_validation MqttOptions.default 30 2 4 3).2.1 (by decide),
   (c7_setter_validation MqttOptions.default 30 2 4 3).2.2.2.1 (by decide),
   (c7_setter_validation MqttOptions.default 30 2 4 3).2.2.2.2.2 (by decide)⟩

/-- C8 counterexample: `set_max_packet_size 0` performs no validation and
succeeds, leaving `max_packet_size = 0` — an `MqttOptions` with
`max_packet_size = 0` is constructible without any failure. -/
theorem c8_zero_max_packet_size_constructible :
    (MqttOptions.default.set_max_packet_size 0).max_packet_size = 0 := by
  rfl

/-- C8 amended: building options does NOT enforce `max_packet_size > 0`:
`set_max_packet_size` applies no validation (it always succeeds, storing
`sz * 1024` modulo `2^64`, hence `0` for `sz = 0`); only the default value
(256 KiB) is positive. -/
theorem c8_no_max_packet_size_validation (sz : Nat) :
    (MqttOptions.default.set_max_packet_size sz).max_packet_size = sz * 1024 % USIZE_MOD
    ∧ 0 < MqttOptions.default.max_packet_size :=
  ⟨rfl, by decide⟩

/-- C10 counterexample: `set_max_packet_size` is kilobyte scaling in `usize`
arithmetic, which wraps: at `sz = 2^63` the stored limit is `0`, not the exact
product `2^63 * 1024`. -/
theorem c10_overflow_wraps :
    (MqttOptions.default.set_max_packet_size (2 ^ 63)).max_packet_size = 0
    ∧ (2 : Nat) ^ 63 * 1024 ≠ 0 :=
  ⟨by decide, by decide⟩

/-- C10 amended: whenever `sz * 1024` does not overflow `usize`
(`sz * 1024 < 2^64`), `set_max_packet_size sz` stores exactly `sz * 1024`
bytes, and the default-constructed value is `256 * 1024` bytes; on overflow
the stored value wraps modulo `2^64`. -/
theorem c10_kilobyte_scaling (o : MqttOptions) (sz : Nat) (h : sz * 1024 < USIZE_MOD) :
    (o.set_max_packet_size sz).max_packet_size = sz * 1024
    ∧ MqttOptions.default.max_packet_size = 256 * 1024 := by
  refine ⟨?_, rfl⟩
  simp [MqttOptions.set_max_packet_size, Nat.mod_eq_of_lt h]

/-- Witness for C10: `set_max_packet_size 3` stores exactly `3 * 1024 = 3072`
bytes on the default options. -/
theorem c10_kilobyte_scaling_witness :
    (MqttOptions.default.set_max_packet_size 3).max_packet_size = 3 * 1024
    ∧ MqttOptions.default.max_packet_size = 256 * 1024 :=
  c10_kilobyte_scaling MqttOptions.default 3 (by decide)
